import Mathlib

/-!
Verification of the image-to-hsds extraction pipeline.

The development shallowly embeds the three Python source files:

* `test_deepseek_ocr.py` — the standalone OCR test entry point
  (`test_deepseek_ocr`, preset resolution, its `main`);
* `extract_hsds.py` — the two-stage pipeline
  (`extract_text_with_deepseek_ocr`, `extract_hsds_data_from_text`,
  `hsds_to_dict`, `print_summary`, `save_to_json`, `save_ocr_text`, `main`).

Pure computations (preset resolution, `model_dump`, the summary renderer)
become Lean functions.  Effectful code is embedded as an explicit event
trace: every `print`, `input`, model load, inference call, network call,
directory creation and file write becomes one `Ev` event, and the
sequential `try/except` structure of the two `main` functions is made
explicit, with each statement group either completing (appending its
events) or raising (appending a prefix of its events and jumping to the
matching handler).
-/

namespace ImageToHsds

/-- OCR inference configuration: the `base_size`, `image_size` and
`crop_mode` arguments handed to `model.infer`. -/
structure OcrConfig where
  base_size : Nat
  image_size : Nat
  crop_mode : Bool
deriving DecidableEq, Repr

/-- The preset table of `test_deepseek_ocr` (the `modes` dict,
test_deepseek_ocr.py lines 45-50), as an association list. -/
def modesTable : List (String × OcrConfig) :=
  [("tiny",   ⟨512, 512, false⟩),
   ("small",  ⟨640, 640, false⟩),
   ("base",   ⟨1024, 1024, false⟩),
   ("gundam", ⟨1024, 640, true⟩)]

/-- Preset resolution in `test_deepseek_ocr` (lines 52-56): a mode not in
the table prints a warning and is replaced by `"tiny"`; the configuration
is then looked up.  Returns the configuration together with whether the
warning was printed. -/
def resolveMode (mode : String) : OcrConfig × Bool :=
  match modesTable.lookup mode with
  | some c => (c, false)
  | none => ((modesTable.lookup "tiny").getD ⟨0, 0, false⟩, true)

/-- The mode name actually used after fallback (the reassignment
`mode = "tiny"` in test_deepseek_ocr.py line 54); it names the output
file `ocr_result_{mode}.txt`. -/
def resolvedModeName (mode : String) : String :=
  match modesTable.lookup mode with
  | some _ => mode
  | none => "tiny"

/-! ## The HSDS data model

Modelled from the spec: the record types (`HSDSData`, `Organization`,
`Service`, `Location`, `Schedule`, `PhoneNumber`, `Address`,
`ServiceAtLocation`) are Pydantic models generated into the
`baml_client` package, which is not part of the source tree; the fields
below follow spec section 3 and the accessors used by `print_summary`
and `hsds_to_dict` in extract_hsds.py. -/

/-- Modelled from the spec: `Organization` — `name` and `description`
required strings, `url` optional. -/
structure Organization where
  name : String
  description : String
  url : Option String
deriving DecidableEq, Repr

/-- Modelled from the spec: `PhoneNumber` — `number`, `phone_type`. -/
structure PhoneNumber where
  number : String
  phone_type : String
deriving DecidableEq, Repr

/-- Modelled from the spec: `Address` — five string fields. -/
structure Address where
  address_1 : String
  city : String
  state_province : String
  postal_code : String
  address_type : String
deriving DecidableEq, Repr

/-- Modelled from the spec: `Schedule` — optional `description`, `freq`,
optional `byday`, `opens_at`/`closes_at`. -/
structure Schedule where
  description : Option String
  freq : String
  byday : Option String
  opens_at : String
  closes_at : String
deriving DecidableEq, Repr

/-- Modelled from the spec: `Service` — `name`, `description`, `status`,
optional `eligibility` and `fees`, sequences of schedules and phones. -/
structure Service where
  name : String
  description : String
  status : String
  eligibility : Option String
  fees : Option String
  schedules : List Schedule
  phones : List PhoneNumber
deriving DecidableEq, Repr

/-- Modelled from the spec: `Location` — `name`, optional `description`,
sequence of addresses. -/
structure Location where
  name : String
  description : Option String
  addresses : List Address
deriving DecidableEq, Repr

/-- Modelled from the spec: `ServiceAtLocation` pairs exactly one
service with exactly one location. -/
structure ServiceAtLocation where
  service : Service
  location : Location
deriving DecidableEq, Repr

/-- Modelled from the spec: `HSDSData` — one organization plus an
ordered sequence of service-at-location pairs. -/
structure HSDSData where
  organization : Organization
  services_at_locations : List ServiceAtLocation
deriving DecidableEq, Repr

/-! ## JSON values and `hsds_to_dict` (= Pydantic `model_dump`) -/

/-- JSON values as written by `json.dump` / read back by `json.load`. -/
inductive JVal where
  | jnull
  | jstr (s : String)
  | jarr (xs : List JVal)
  | jobj (fields : List (String × JVal))

/-- `model_dump` renders an absent optional string field as JSON null. -/
def optJ : Option String → JVal
  | none => .jnull
  | some s => .jstr s

/-- `model_dump` of an `Organization`. -/
def orgDump (o : Organization) : JVal :=
  .jobj [("name", .jstr o.name), ("description", .jstr o.description),
         ("url", optJ o.url)]

/-- `model_dump` of a `PhoneNumber`. -/
def phoneDump (p : PhoneNumber) : JVal :=
  .jobj [("number", .jstr p.number), ("phone_type", .jstr p.phone_type)]

/-- `model_dump` of an `Address`. -/
def addrDump (a : Address) : JVal :=
  .jobj [("address_1", .jstr a.address_1), ("city", .jstr a.city),
         ("state_province", .jstr a.state_province),
         ("postal_code", .jstr a.postal_code),
         ("address_type", .jstr a.address_type)]

/-- `model_dump` of a `Schedule`. -/
def schedDump (s : Schedule) : JVal :=
  .jobj [("description", optJ s.description), ("freq", .jstr s.freq),
         ("byday", optJ s.byday), ("opens_at", .jstr s.opens_at),
         ("closes_at", .jstr s.closes_at)]

/-- `model_dump` of a `Service` (nested models become nested objects,
sequences become arrays). -/
def serviceDump (s : Service) : JVal :=
  .jobj [("name", .jstr s.name), ("description", .jstr s.description),
         ("status", .jstr s.status), ("eligibility", optJ s.eligibility),
         ("fees", optJ s.fees),
         ("schedules", .jarr (s.schedules.map schedDump)),
         ("phones", .jarr (s.phones.map phoneDump))]

/-- `model_dump` of a `Location`. -/
def locationDump (l : Location) : JVal :=
  .jobj [("name", .jstr l.name), ("description", optJ l.description),
         ("addresses", .jarr (l.addresses.map addrDump))]

/-- `model_dump` of a `ServiceAtLocation`. -/
def salDump (sal : ServiceAtLocation) : JVal :=
  .jobj [("service", serviceDump sal.service),
         ("location", locationDump sal.location)]

/-- `hsds_to_dict` (extract_hsds.py lines 136-147): the dictionary
representation `hsds_data.model_dump()` that `save_to_json` writes. -/
def hsds_to_dict (d : HSDSData) : JVal :=
  .jobj [("organization", orgDump d.organization),
         ("services_at_locations",
          .jarr (d.services_at_locations.map salDump))]

/-! ### Parsing the JSON back (the read direction of the round-trip) -/

/-- Key lookup in a parsed JSON object. -/
def jLookup (k : String) : JVal → Option JVal
  | .jobj fs => fs.lookup k
  | _ => none

/-- Read back a required string field. -/
def asStr : JVal → Option String
  | .jstr s => some s
  | _ => none

/-- Read back an optional string field (null means absent). -/
def asOptStr : JVal → Option (Option String)
  | .jnull => some none
  | .jstr s => some (some s)
  | _ => none

/-- Traverse a list of JSON values with an element parser. -/
def jListM {α : Type} (g : JVal → Option α) : List JVal → Option (List α)
  | [] => some []
  | v :: vs => do
      let a ← g v
      let rest ← jListM g vs
      pure (a :: rest)

/-- Read back a JSON array with an element parser. -/
def asArr {α : Type} (g : JVal → Option α) : JVal → Option (List α)
  | .jarr xs => jListM g xs
  | _ => none

/-- Parse an `Organization` back from JSON. -/
def orgFromJson (v : JVal) : Option Organization := do
  let n ← jLookup "name" v >>= asStr
  let d ← jLookup "description" v >>= asStr
  let u ← jLookup "url" v >>= asOptStr
  pure ⟨n, d, u⟩

/-- Parse a `PhoneNumber` back from JSON. -/
def phoneFromJson (v : JVal) : Option PhoneNumber := do
  let n ← jLookup "number" v >>= asStr
  let t ← jLookup "phone_type" v >>= asStr
  pure ⟨n, t⟩

/-- Parse an `Address` back from JSON. -/
def addrFromJson (v : JVal) : Option Address := do
  let a1 ← jLookup "address_1" v >>= asStr
  let c ← jLookup "city" v >>= asStr
  let sp ← jLookup "state_province" v >>= asStr
  let pc ← jLookup "postal_code" v >>= asStr
  let ty ← jLookup "address_type" v >>= asStr
  pure ⟨a1, c, sp, pc, ty⟩

/-- Parse a `Schedule` back from JSON. -/
def schedFromJson (v : JVal) : Option Schedule := do
  let de ← jLookup "description" v >>= asOptStr
  let fr ← jLookup "freq" v >>= asStr
  let bd ← jLookup "byday" v >>= asOptStr
  let op ← jLookup "opens_at" v >>= asStr
  let cl ← jLookup "closes_at" v >>= asStr
  pure ⟨de, fr, bd, op, cl⟩

/-- Parse a `Service` back from JSON. -/
def serviceFromJson (v : JVal) : Option Service := do
  let n ← jLookup "name" v >>= asStr
  let d ← jLookup "description" v >>= asStr
  let st ← jLookup "status" v >>= asStr
  let el ← jLookup "eligibility" v >>= asOptStr
  let fe ← jLookup "fees" v >>= asOptStr
  let sc ← jLookup "schedules" v >>= asArr schedFromJson
  let ph ← jLookup "phones" v >>= asArr phoneFromJson
  pure ⟨n, d, st, el, fe, sc, ph⟩

/-- Parse a `Location` back from JSON. -/
def locationFromJson (v : JVal) : Option Location := do
  let n ← jLookup "name" v >>= asStr
  let de ← jLookup "description" v >>= asOptStr
  let ad ← jLookup "addresses" v >>= asArr addrFromJson
  pure ⟨n, de, ad⟩

/-- Parse a `ServiceAtLocation` back from JSON. -/
def salFromJson (v : JVal) : Option ServiceAtLocation := do
  let s ← jLookup "service" v >>= serviceFromJson
  let l ← jLookup "location" v >>= locationFromJson
  pure ⟨s, l⟩

/-- Parse an `HSDSData` record back from JSON. -/
def hsdsFromJson (v : JVal) : Option HSDSData := do
  let o ← jLookup "organization" v >>= orgFromJson
  let sals ← jLookup "services_at_locations" v >>= asArr salFromJson
  pure ⟨o, sals⟩

/-! ## The human-readable summary (`print_summary`)

`print_summary` (extract_hsds.py lines 150-201) is embedded as a pure
function from an `HSDSData` record to the list of lines it prints: each
`print` call becomes one `SLine` value carrying the interpolated
arguments of its f-string, in the order the calls execute.  Python
truthiness tests (`if x:`) on optional strings are `pyTruthy`, and the
`x or y` idiom is `pyOr`. -/

/-- One printed line of the summary, one constructor per `print` call
in `print_summary`, carrying the f-string's interpolated arguments. -/
inductive SLine where
  | sepLine
  | headerLine
  | orgHeader
  | orgName (s : String)
  | orgDesc (s : String)
  | orgUrl (s : String)
  | salHeader (n : Nat)
  | svcHeader (idx : Nat) (name : String)
  | svcDesc (s : String)
  | svcStatus (s : String)
  | svcElig (s : String)
  | svcFees (s : String)
  | schedulesHeader
  | schedDesc (s : String)
  | schedFreq (s : String)
  | schedDays (s : String)
  | schedHours (opens closes : String)
  | phonesHeader
  | phoneLine (num ty : String)
  | locHeader (s : String)
  | locDesc (s : String)
  | addrLine1 (s : String)
  | addrLine2 (city st zip : String)
  | addrType (s : String)
  | finalSep
deriving DecidableEq, Repr

/-- Python truthiness of an optional string: `None` and `""` are falsy. -/
def pyTruthy : Option String → Bool
  | none => false
  | some s => !s.isEmpty

/-- The Python `x or y` idiom on an optional string: the default is used
when the value is `None` or empty. -/
def pyOr (v : Option String) (dflt : String) : String :=
  match v with
  | some s => if s.isEmpty then dflt else s
  | none => dflt

/-- Lines printed for one schedule (the loop body at extract_hsds.py
lines 179-184): the header line renders
`schedule.description or "Schedule"`, the days line is only printed when
`byday` is truthy, and the hours line is printed unconditionally. -/
def scheduleLines (sch : Schedule) : List SLine :=
  [SLine.schedDesc (pyOr sch.description "Schedule"),
   SLine.schedFreq sch.freq]
  ++ (if pyTruthy sch.byday then [SLine.schedDays (sch.byday.getD "")] else [])
  ++ [SLine.schedHours sch.opens_at sch.closes_at]

/-- Lines printed for one address (loop body at lines 196-199). -/
def addressLines (a : Address) : List SLine :=
  [SLine.addrLine1 a.address_1,
   SLine.addrLine2 a.city a.state_province a.postal_code,
   SLine.addrType a.address_type]

/-- The block printed for one ServiceAtLocation (loop body at
extract_hsds.py lines 166-199), with its 1-based index. -/
def salBlock (idx : Nat) (sal : ServiceAtLocation) : List SLine :=
  [SLine.svcHeader idx sal.service.name,
   SLine.svcDesc sal.service.description,
   SLine.svcStatus sal.service.status]
  ++ (if pyTruthy sal.service.eligibility
      then [SLine.svcElig (sal.service.eligibility.getD "")] else [])
  ++ (if pyTruthy sal.service.fees
      then [SLine.svcFees (sal.service.fees.getD "")] else [])
  ++ (if sal.service.schedules.isEmpty then []
      else SLine.schedulesHeader :: sal.service.schedules.flatMap scheduleLines)
  ++ (if sal.service.phones.isEmpty then []
      else SLine.phonesHeader ::
           sal.service.phones.map (fun p => SLine.phoneLine p.number p.phone_type))
  ++ [SLine.locHeader sal.location.name]
  ++ (if pyTruthy sal.location.description
      then [SLine.locDesc (sal.location.description.getD "")] else [])
  ++ (if sal.location.addresses.isEmpty then []
      else sal.location.addresses.flatMap addressLines)

/-- The `enumerate(..., 1)` loop over `services_at_locations`. -/
def salBlocks (idx : Nat) : List ServiceAtLocation → List SLine
  | [] => []
  | sal :: rest => salBlock idx sal ++ salBlocks (idx + 1) rest

/-- `print_summary` (extract_hsds.py lines 150-201) as the list of lines
it prints. -/
def print_summary (d : HSDSData) : List SLine :=
  [SLine.sepLine, SLine.headerLine, SLine.sepLine,
   SLine.orgHeader,
   SLine.orgName d.organization.name,
   SLine.orgDesc d.organization.description]
  ++ (if pyTruthy d.organization.url
      then [SLine.orgUrl (d.organization.url.getD "")] else [])
  ++ [SLine.salHeader d.services_at_locations.length]
  ++ salBlocks 1 d.services_at_locations
  ++ [SLine.finalSep]

/-- Selector for `SERVICES & LOCATIONS (N found)` header lines. -/
def selSalHeader : SLine → Option Nat
  | .salHeader n => some n
  | _ => none

/-- Selector for `[i] SERVICE:` header lines. -/
def selSvcHeader : SLine → Option Nat
  | .svcHeader i _ => some i
  | _ => none

/-- Selector for `Website:` lines. -/
def selOrgUrl : SLine → Option String
  | .orgUrl s => some s
  | _ => none

/-- Selector for `Eligibility:` lines. -/
def selElig : SLine → Option String
  | .svcElig s => some s
  | _ => none

/-- Selector for `Fees:` lines. -/
def selFees : SLine → Option String
  | .svcFees s => some s
  | _ => none

/-- Selector for `Days:` lines. -/
def selDays : SLine → Option String
  | .schedDays s => some s
  | _ => none

/-- Selector for location `Description:` lines. -/
def selLocDesc : SLine → Option String
  | .locDesc s => some s
  | _ => none

/-- Selector for schedule header lines
(`- {schedule.description or "Schedule"}`). -/
def selSchedDesc : SLine → Option String
  | .schedDesc s => some s
  | _ => none

/-- The interpolated counts of the `SERVICES & LOCATIONS (N found)`
header lines occurring in a line list. -/
def salHeaderCounts (ls : List SLine) : List Nat := ls.filterMap selSalHeader

/-- The 1-based indices of the `[i] SERVICE:` header lines occurring in
a line list, in print order. -/
def svcHeaderIdxs (ls : List SLine) : List Nat := ls.filterMap selSvcHeader

/-- The values carried by `Website:` lines. -/
def orgUrlVals (ls : List SLine) : List String := ls.filterMap selOrgUrl

/-- The values carried by `Eligibility:` lines. -/
def eligVals (ls : List SLine) : List String := ls.filterMap selElig

/-- The values carried by `Fees:` lines. -/
def feesVals (ls : List SLine) : List String := ls.filterMap selFees

/-- The values carried by `Days:` lines. -/
def daysVals (ls : List SLine) : List String := ls.filterMap selDays

/-- The values carried by location `Description:` lines. -/
def locDescVals (ls : List SLine) : List String := ls.filterMap selLocDesc

/-- The rendered texts of schedule header lines. -/
def schedDescVals (ls : List SLine) : List String := ls.filterMap selSchedDesc

/-! ## Concrete sample data (used by witnesses and counterexamples) -/

/-- A schedule with an absent optional description and absent `byday`. -/
def sched0 : Schedule := ⟨none, "WEEKLY", none, "09:00", "17:00"⟩

/-- A sample phone number. -/
def phone0 : PhoneNumber := ⟨"555-0100", "voice"⟩

/-- A sample address. -/
def addr0 : Address :=
  ⟨"1 Main St", "Seattle", "WA", "98101", "physical"⟩

/-- A sample service with absent optional fields and one schedule. -/
def svc0 : Service :=
  ⟨"Food Bank", "Free food distribution", "active", none, none,
   [sched0], [phone0]⟩

/-- A sample location with an absent optional description. -/
def loc0 : Location := ⟨"Main Office", none, [addr0]⟩

/-- A sample service-at-location pair. -/
def sal0 : ServiceAtLocation := ⟨svc0, loc0⟩

/-- A sample organization with an absent optional url. -/
def org0 : Organization := ⟨"Helping Hands", "A community organization", none⟩

/-- A sample structured record with one service-at-location. -/
def hsds0 : HSDSData := ⟨org0, [sal0]⟩

/-! ## Effect traces

The effectful parts of both entry points are embedded as explicit event
traces: every `print`, `input`, tokenizer/model load, `mkdir`,
`model.infer` call, BAML network call and file write becomes one `Ev`
value, emitted in program order.  Model inference is an oracle function
`inferFn` from the `model.infer` arguments to the returned text;
wall-clock and device-dependent print fragments are parameters. -/

/-- One observable effect of the program. -/
inductive Ev where
  | out (s : String)
  | err (s : String)
  | promptUser (s : String)
  | loadTokenizer
  | loadModel
  | existsCheck (path : String) (res : Bool)
  | mkdirCall (path : String)
  | mkdirParent (ofPath : String)
  | inferCall (prompt : String) (imageFile : String)
      (baseSize imageSize : Nat) (cropMode : Bool)
  | extractNet
  | writeText (path content : String)
  | writeJson (path : String) (v : JVal)

/-- Is the event a stdout print? -/
def isOut : Ev → Bool
  | .out _ => true
  | _ => false

/-- Is the event a stderr print? -/
def isErr : Ev → Bool
  | .err _ => true
  | _ => false

/-- Is the event the interactive `input(...)` prompt? -/
def isPromptEv : Ev → Bool
  | .promptUser _ => true
  | _ => false

/-- Is the event a model operation (loading a tokenizer or model, an OCR
inference call, or the structured-extraction network call)? -/
def isModelEv : Ev → Bool
  | .loadTokenizer => true
  | .loadModel => true
  | .inferCall _ _ _ _ _ => true
  | .extractNet => true
  | _ => false

/-- Is the event an OCR inference call? -/
def isInferEv : Ev → Bool
  | .inferCall _ _ _ _ _ => true
  | _ => false

/-- Is the event the structured-extraction network call? -/
def isExtractCall : Ev → Bool
  | .extractNet => true
  | _ => false

/-- Is the event a file write? -/
def isWriteEv : Ev → Bool
  | .writeText _ _ => true
  | .writeJson _ _ => true
  | _ => false

/-- Is the event a file-existence check? -/
def isExistsCheckEv : Ev → Bool
  | .existsCheck _ _ => true
  | _ => false

/-- The fixed default path of the persisted OCR text
(extract_hsds.py line 253). -/
def ocrOutputFile : String := "./hsds_outputs/ocr_extracted_text.txt"

/-- The fixed default path of the persisted JSON record
(extract_hsds.py line 263). -/
def jsonOutputFile : String := "./hsds_outputs/extracted_hsds_data_ollama.json"

/-- Is the event the write of the persisted OCR text file? -/
def isOcrTextWrite : Ev → Bool
  | .writeText p _ => p == ocrOutputFile
  | _ => false

/-- `"=" * 80`. -/
def hr : String := String.mk (List.replicate 80 ('='))

/-- `"-" * 80`. -/
def dash80 : String := String.mk (List.replicate 80 ('-'))

/-- The fixed OCR instruction used by both entry points
(extract_hsds.py line 78, test_deepseek_ocr.py line 106). -/
def ocrPrompt : String := "<image>\n<|grounding|>Convert the document to markdown."

/-- The default input image path of both entry points. -/
def default_image : String := "./images/20251020_100526.jpg"

/-- The type of the `model.infer` oracle: maps the prompt, image file,
`base_size`, `image_size` and `crop_mode` arguments to the returned
text. -/
def InferFn : Type := String → String → Nat → Nat → Bool → String

/-- The event trace of `extract_text_with_deepseek_ocr`
(extract_hsds.py lines 34-110), given the image path, the device string
and the text the inference returns. -/
def ocrStageEvs (imagePath dev txt : String) : List Ev :=
  [Ev.out ("\n" ++ hr),
   Ev.out "STAGE 1: DeepSeek OCR - Text Extraction",
   Ev.out hr,
   Ev.out ("Loading image from: " ++ imagePath),
   Ev.out "\nLoading DeepSeek OCR model: deepseek-ai/DeepSeek-OCR",
   Ev.out "This may take a moment on first run as the model is downloaded...",
   Ev.loadTokenizer,
   Ev.loadModel,
   Ev.out ("Using device: " ++ dev),
   Ev.out "\nExtracting text from image...",
   Ev.out ("Prompt: " ++ ocrPrompt),
   Ev.mkdirCall "./temp_ocr_output",
   Ev.inferCall ocrPrompt imagePath 1024 640 true,
   Ev.out ("\n" ++ hr),
   Ev.out "OCR Extraction Complete",
   Ev.out hr,
   Ev.out ("\nExtracted text length: " ++ toString txt.length ++ " characters"),
   Ev.out "\nFirst 500 characters of extracted text:",
   Ev.out dash80,
   Ev.out (txt.take 500),
   Ev.out dash80]

/-- `extract_text_with_deepseek_ocr` as trace plus returned value: the
inference is invoked with the fixed prompt and the fixed Gundam
configuration `base_size=1024, image_size=640, crop_mode=True`, and its
result is returned unmodified. -/
def extract_text_with_deepseek_ocr (inferFn : InferFn)
    (imagePath dev : String) : List Ev × String :=
  let txt := inferFn ocrPrompt imagePath 1024 640 true
  (ocrStageEvs imagePath dev txt, txt)

/-- The event trace of `save_ocr_text` (extract_hsds.py lines 219-229):
create the parent directory, write the text, report. -/
def save_ocr_text (txt path : String) : List Ev :=
  [Ev.mkdirParent path,
   Ev.writeText path txt,
   Ev.out ("OCR text saved to: " ++ path)]

/-- The event trace of `save_to_json` (extract_hsds.py lines 204-216):
create the parent directory, dump `hsds_to_dict` as JSON, report. -/
def save_to_json (d : HSDSData) (path : String) : List Ev :=
  [Ev.mkdirParent path,
   Ev.writeJson path (hsds_to_dict d),
   Ev.out ("\nHSDS data saved to: " ++ path)]

/-- The event trace of `extract_hsds_data_from_text`
(extract_hsds.py lines 113-133): six progress prints directly followed
by the BAML network call `b.ExtractHSDSFromText` — no configuration or
credential check of any kind precedes the call. -/
def extract_hsds_data_from_text_evs : List Ev :=
  [Ev.out ("\n" ++ hr),
   Ev.out "STAGE 2: gpt-oss-20b - HSDS Extraction",
   Ev.out hr,
   Ev.out "\nExtracting structured HSDS data from OCR text...",
   Ev.out "Using gpt-oss-20b via Ollama...",
   Ev.out "This may take a moment as the AI analyzes the text...\n",
   Ev.extractNet]

/-- Rendering of a summary line to the exact printed string. -/
def renderSLine : SLine → String
  | .sepLine => hr
  | .headerLine => "HSDS DATA EXTRACTION SUMMARY"
  | .orgHeader => "\nORGANIZATION"
  | .orgName s => "   Name: " ++ s
  | .orgDesc s => "   Description: " ++ s
  | .orgUrl s => "   Website: " ++ s
  | .salHeader n => "\nSERVICES & LOCATIONS (" ++ toString n ++ " found)"
  | .svcHeader i name => "\n   [" ++ toString i ++ "] SERVICE: " ++ name
  | .svcDesc s => "       Description: " ++ s
  | .svcStatus s => "       Status: " ++ s
  | .svcElig s => "       Eligibility: " ++ s
  | .svcFees s => "       Fees: " ++ s
  | .schedulesHeader => "       Schedules:"
  | .schedDesc s => "         - " ++ s
  | .schedFreq s => "           Frequency: " ++ s
  | .schedDays s => "           Days: " ++ s
  | .schedHours a b => "           Hours: " ++ a ++ " - " ++ b
  | .phonesHeader => "       Phone Numbers:"
  | .phoneLine n t => "         - " ++ n ++ " (" ++ t ++ ")"
  | .locHeader s => "\n       LOCATION: " ++ s
  | .locDesc s => "          Description: " ++ s
  | .addrLine1 s => "          Address: " ++ s
  | .addrLine2 c st z => "                   " ++ c ++ ", " ++ st ++ " " ++ z
  | .addrType s => "                   Type: " ++ s
  | .finalSep => "\n" ++ hr

/-- An exception escaping a statement group: either the user's
`KeyboardInterrupt` or an ordinary `Exception` with its message. -/
inductive Exc where
  | keyInt
  | exc (msg : String)
deriving DecidableEq, Repr

/-- The outcome of one statement group inside a `try` block: it either
completes, or raises an ordinary exception, or is interrupted by the
user.  `k` is how many of the group's events had already happened when
the exception struck. -/
inductive StageRes where
  | okRes
  | raiseExc (k : Nat) (msg : String)
  | raiseInt (k : Nat)
deriving DecidableEq, Repr

/-- The exception (if any) a statement group contributes. -/
def stageExc : StageRes → Option Exc
  | .okRes => none
  | .raiseExc _ m => some (.exc m)
  | .raiseInt _ => some .keyInt

/-- Sequencing inside a `try` block: run one statement group; on
success continue with the rest, on an exception keep the prefix of the
group's events and abort with that exception. -/
def seqStage (evs : List Ev) (r : StageRes) (rest : List Ev × Option Exc) :
    List Ev × Option Exc :=
  match r with
  | .okRes => (evs ++ rest.1, rest.2)
  | .raiseExc k _ => (evs.take k, stageExc r)
  | .raiseInt k => (evs.take k, stageExc r)

/-- Outcomes of the statement groups of the `try` block of
`extract_hsds.py`'s `main` (lines 241-274), in program order. -/
structure RunResults where
  promptR : StageRes
  ocrR : StageRes
  saveOcrR : StageRes
  extractR : StageRes
  summaryR : StageRes
  saveJsonR : StageRes
deriving DecidableEq, Repr

/-- The first exception escaping the `try` body, if any. -/
def bodyExc (r : RunResults) : Option Exc :=
  (stageExc r.promptR).orElse fun _ =>
  (stageExc r.ocrR).orElse fun _ =>
  (stageExc r.saveOcrR).orElse fun _ =>
  (stageExc r.extractR).orElse fun _ =>
  (stageExc r.summaryR).orElse fun _ =>
  stageExc r.saveJsonR

/-- The Ollama connection prompt of `main` (extract_hsds.py lines
243-247): four progress prints then the blocking `input(...)`. -/
def preludeEvs : List Ev :=
  [Ev.out "\nChecking Ollama connection...",
   Ev.out "Make sure Ollama is running with: ollama run gpt-oss:20b",
   Ev.out "If not started, open a terminal and run:",
   Ev.out "  ollama run gpt-oss:20b",
   Ev.promptUser "\nPress Enter when Ollama is ready (or Ctrl+C to cancel)..."]

/-- The final report prints of `main` (extract_hsds.py lines 266-274). -/
def finalEvs : List Ev :=
  [Ev.out ("\n" ++ hr),
   Ev.out "TWO-STAGE EXTRACTION COMPLETE",
   Ev.out hr,
   Ev.out "\nPipeline Summary:",
   Ev.out "  1. ✓ DeepSeek OCR extracted text from image",
   Ev.out "  2. ✓ gpt-oss-20b extracted HSDS structured data",
   Ev.out "\nOutputs:",
   Ev.out ("  - OCR Text: " ++ ocrOutputFile),
   Ev.out ("  - HSDS JSON: " ++ jsonOutputFile)]

/-- The `try` body of `extract_hsds.py`'s `main` (lines 241-274):
prompt, OCR stage, persist the OCR text, extraction stage, summary,
persist the JSON, final report.  `d` stands for the record the
extraction call returns. -/
def tryBody (inferFn : InferFn) (imagePath dev : String) (d : HSDSData)
    (r : RunResults) : List Ev × Option Exc :=
  let txt := inferFn ocrPrompt imagePath 1024 640 true
  seqStage preludeEvs r.promptR <|
  seqStage (ocrStageEvs imagePath dev txt) r.ocrR <|
  seqStage (save_ocr_text txt ocrOutputFile) r.saveOcrR <|
  seqStage extract_hsds_data_from_text_evs r.extractR <|
  seqStage ((print_summary d).map fun l => Ev.out (renderSLine l)) r.summaryR <|
  seqStage (save_to_json d jsonOutputFile) r.saveJsonR
  (finalEvs, none)

/-- `extract_hsds.py`'s `main` (lines 232-283): run the `try` body,
then dispatch on the escaping exception — `KeyboardInterrupt` prints a
cancellation note to stdout and exits 0, any other exception prints
`Error: ...` to stderr and exits 1, and a clean run exits 0.  Returns
the full event trace and the process exit code. -/
def mainRun (inferFn : InferFn) (imagePath dev : String) (d : HSDSData)
    (r : RunResults) : List Ev × Nat :=
  match tryBody inferFn imagePath dev d r with
  | (t, none) => (t, 0)
  | (t, some .keyInt) => (t ++ [Ev.out "\n\nOperation cancelled by user."], 0)
  | (t, some (.exc m)) => (t ++ [Ev.err ("\nError: " ++ m)], 1)

/-! ### The standalone OCR test entry point (`test_deepseek_ocr.py`) -/

/-- Python `str(bool)` rendering. -/
def pyBool : Bool → String
  | true => "True"
  | false => "False"

/-- The event trace and result of `test_deepseek_ocr`
(test_deepseek_ocr.py lines 23-154): banner, preset resolution with a
warning (not an error) on an unknown mode, configuration and device
report, model load, inference with the resolved configuration, result
report, and a save of the full text named after the resolved mode.
`lt`, `ot` and `tt` are the formatted load/OCR/total timings. -/
def test_deepseek_ocr_run (inferFn : InferFn)
    (imagePath mode dev devName lt ot tt : String) : List Ev × String :=
  let cfg := (resolveMode mode).1
  let warned := (resolveMode mode).2
  let usedMode := resolvedModeName mode
  let txt := inferFn ocrPrompt imagePath cfg.base_size cfg.image_size
    cfg.crop_mode
  ([Ev.out ("\n" ++ hr),
    Ev.out "DEEPSEEK OCR TEST",
    Ev.out hr]
   ++ (if warned then
        [Ev.out ("Invalid mode: " ++ mode ++ ". Using \x27tiny\x27 instead.")]
       else [])
   ++ [Ev.out ("\nMode: " ++ usedMode.toUpper),
       Ev.out ("  Base size: " ++ toString cfg.base_size),
       Ev.out ("  Image size: " ++ toString cfg.image_size),
       Ev.out ("  Crop mode: " ++ pyBool cfg.crop_mode),
       Ev.out ("\nImage: " ++ imagePath),
       Ev.out ("Device: " ++ dev ++ " (" ++ devName ++ ")"),
       Ev.out ("\n" ++ dash80),
       Ev.out "\nLoading model: deepseek-ai/DeepSeek-OCR",
       Ev.out "This may take a moment on first run (downloading ~2-3GB)...",
       Ev.loadTokenizer,
       Ev.loadModel,
       Ev.out ("✓ Model loaded in " ++ lt ++ "s"),
       Ev.mkdirCall "./test_ocr_output",
       Ev.out "\nRunning OCR...",
       Ev.out ("  Prompt: " ++ ocrPrompt),
       Ev.inferCall ocrPrompt imagePath cfg.base_size cfg.image_size
         cfg.crop_mode,
       Ev.out ("✓ OCR completed in " ++ ot ++ "s"),
       Ev.out ("\n" ++ hr),
       Ev.out "RESULTS",
       Ev.out hr,
       Ev.out ("\nExtracted text length: " ++ toString txt.length
         ++ " characters"),
       Ev.out ("Total time: " ++ tt ++ "s (load: " ++ lt ++ "s, ocr: "
         ++ ot ++ "s)"),
       Ev.out "\nFirst 500 characters:",
       Ev.out dash80,
       Ev.out (txt.take 500),
       Ev.out dash80,
       Ev.writeText ("./test_ocr_output/ocr_result_" ++ usedMode ++ ".txt")
         txt,
       Ev.out ("\nFull text saved to: ./test_ocr_output/ocr_result_"
         ++ usedMode ++ ".txt")],
   txt)

/-- The usage message printed by `test_deepseek_ocr.py`'s `main` when
the input image does not exist (lines 180-189). -/
def usageEvs (arg0 imagePath : String) : List Ev :=
  [Ev.out ("\nError: Image file not found: " ++ imagePath),
   Ev.out "\nUsage:",
   Ev.out ("  python " ++ arg0 ++ " [image_path] [mode]"),
   Ev.out "\nModes:",
   Ev.out "  tiny   - Fastest, for quick testing (default)",
   Ev.out "  small  - Fast, good quality",
   Ev.out "  base   - Slow, better quality",
   Ev.out "  gundam - Slowest, best quality",
   Ev.out "\nExample:",
   Ev.out ("  python " ++ arg0 ++ " ./images/myimage.jpg small")]

/-- The closing tips printed by `test_deepseek_ocr.py`'s `main` on
success (lines 195-208). -/
def tipsEvs : List Ev :=
  [Ev.out ("\n" ++ hr),
   Ev.out "TEST COMPLETE",
   Ev.out hr,
   Ev.out "\nTips for your M2 Mac:",
   Ev.out "  • \x27tiny\x27 or \x27small\x27 modes are recommended for speed",
   Ev.out "  • First run is slow due to model download (~2-3GB)",
   Ev.out "  • Subsequent runs are much faster",
   Ev.out "  • Close other apps to free up memory",
   Ev.out "  • If too slow, consider using a smaller base_size",
   Ev.out "\nNext steps:",
   Ev.out "  • Try different modes to find speed/quality balance",
   Ev.out "  • Once satisfied, integrate with full extraction pipeline",
   Ev.out "  • Check the saved .txt file for full results"]

/-- `test_deepseek_ocr.py`'s `main` (lines 157-217): banner, then the
file-existence check — a missing input prints the usage message and
exits 1 before anything is loaded or read — then the `try` block around
the OCR test call.  `KeyboardInterrupt` exits 0; any other exception
prints `Error: ...` to standard output (not stderr) and exits 1. -/
def testMainRun (inferFn : InferFn)
    (arg0 imagePath mode dev devName lt ot tt : String)
    (pathExists : Bool) (r : StageRes) : List Ev × Nat :=
  let entry := [Ev.out ("\n" ++ hr),
                Ev.out "DeepSeek OCR Test Script",
                Ev.out hr]
  if pathExists then
    let body := seqStage
      (test_deepseek_ocr_run inferFn imagePath mode dev devName lt ot tt).1
      r (tipsEvs, none)
    match body with
    | (t, none) => (entry ++ [Ev.existsCheck imagePath true] ++ t, 0)
    | (t, some .keyInt) =>
        (entry ++ [Ev.existsCheck imagePath true] ++ t
          ++ [Ev.out "\n\nTest cancelled by user."], 0)
    | (t, some (.exc m)) =>
        (entry ++ [Ev.existsCheck imagePath true] ++ t
          ++ [Ev.out ("\nError: " ++ m)], 1)
  else
    (entry ++ [Ev.existsCheck imagePath false] ++ usageEvs arg0 imagePath, 1)

/-- Does an OCR inference event use exactly the fixed pipeline
configuration (the Gundam triple and the fixed prompt) for the given
image?  Non-inference events satisfy this trivially. -/
def isFixedInfer (imagePath : String) : Ev → Bool
  | .inferCall p f b i c =>
      p == ocrPrompt && f == imagePath && b == 1024 && i == 640 && c == true
  | _ => true

/-- A concrete inference oracle. -/
def inferC : InferFn := fun _ _ _ _ _ => "OCR TEXT"

/-- A concrete run interrupted by Ctrl+C at the Ollama prompt (all five
prelude events had happened, then `input` was interrupted). -/
def rCancel : RunResults :=
  ⟨.raiseInt 5, .okRes, .okRes, .okRes, .okRes, .okRes⟩

/-- A concrete run in which the extraction stage raises. -/
def rFail : RunResults :=
  ⟨.okRes, .okRes, .okRes, .raiseExc 0 "boom", .okRes, .okRes⟩

/-- A concrete run in which the OCR stage raises from inside the
inference call (the first 13 OCR-stage events, through the `infer`
call, had happened). -/
def rOcrCrash : RunResults :=
  ⟨.okRes, .raiseExc 13 "file not found", .okRes, .okRes, .okRes, .okRes⟩

/-- A concrete fully successful run. -/
def rOk : RunResults :=
  ⟨.okRes, .okRes, .okRes, .okRes, .okRes, .okRes⟩

end ImageToHsds

namespace ImageToHsds

theorem jListM_map {α : Type} (g : JVal → Option α) (f : α → JVal)
    (h : ∀ x, g (f x) = some x) :
    ∀ xs : List α, jListM g (xs.map f) = some xs := by
  intro xs
  induction xs with
  | nil => rfl
  | cons x xs ih => simp [jListM, h, ih]

theorem orgFromJson_orgDump (o : Organization) :
    orgFromJson (orgDump o) = some o := by
  cases o with
  | mk n d u => cases u <;> rfl

theorem phoneFromJson_phoneDump (p : PhoneNumber) :
    phoneFromJson (phoneDump p) = some p := by
  cases p; rfl

theorem addrFromJson_addrDump (a : Address) :
    addrFromJson (addrDump a) = some a := by
  cases a; rfl

theorem schedFromJson_schedDump (s : Schedule) :
    schedFromJson (schedDump s) = some s := by
  cases s with
  | mk de fr bd op cl => cases de <;> cases bd <;> rfl

theorem serviceFromJson_serviceDump (s : Service) :
    serviceFromJson (serviceDump s) = some s := by
  cases s with
  | mk n d st el fe sc ph =>
    cases el <;> cases fe <;>
      simp [serviceDump, serviceFromJson, jLookup, List.lookup, asStr,
            asOptStr, asArr, optJ,
            jListM_map schedFromJson schedDump schedFromJson_schedDump,
            jListM_map phoneFromJson phoneDump phoneFromJson_phoneDump]

theorem locationFromJson_locationDump (l : Location) :
    locationFromJson (locationDump l) = some l := by
  cases l with
  | mk n de ad =>
    cases de <;>
      simp [locationDump, locationFromJson, jLookup, List.lookup, asStr,
            asOptStr, asArr, optJ,
            jListM_map addrFromJson addrDump addrFromJson_addrDump]

theorem salFromJson_salDump (sal : ServiceAtLocation) :
    salFromJson (salDump sal) = some sal := by
  cases sal with
  | mk s l =>
    simp [salDump, salFromJson, jLookup, List.lookup,
          serviceFromJson_serviceDump, locationFromJson_locationDump]

/-- C4: serializing a StructuredRecord (`HSDSData`) with `save_to_json`
writes exactly the JSON value `hsds_to_dict d` (Pydantic `model_dump`);
parsing that JSON back recovers a record all of whose field values equal
the original's — in fact the parsed record is equal to the original. -/
theorem C4_json_roundtrip (d : HSDSData) :
    hsdsFromJson (hsds_to_dict d) = some d := by
  cases d with
  | mk o sals =>
    simp [hsds_to_dict, hsdsFromJson, jLookup, List.lookup, asArr,
          orgFromJson_orgDump,
          jListM_map salFromJson salDump salFromJson_salDump]

/-! ### Summary lemmas (C5, C6) -/

theorem filterMap_flatMap_nil {β γ : Type} (f : SLine → Option β)
    (g : γ → List SLine) (h : ∀ c, (g c).filterMap f = []) (l : List γ) :
    (l.flatMap g).filterMap f = [] := by
  induction l with
  | nil => rfl
  | cons x xs ih => simp [List.flatMap_cons, List.filterMap_append, h, ih]

theorem filterMap_map_nil {α β γ : Type} (f : β → Option γ) (g : α → β)
    (h : ∀ a, f (g a) = none) (l : List α) :
    (l.map g).filterMap f = [] := by
  induction l with
  | nil => rfl
  | cons x xs ih => simp [List.filterMap_cons, h, ih]

theorem filterMap_scheduleLines_nil {β : Type} (f : SLine → Option β)
    (h1 : ∀ s, f (SLine.schedDesc s) = none)
    (h2 : ∀ s, f (SLine.schedFreq s) = none)
    (h3 : ∀ s, f (SLine.schedDays s) = none)
    (h4 : ∀ a b, f (SLine.schedHours a b) = none)
    (sch : Schedule) : (scheduleLines sch).filterMap f = [] := by
  cases h : pyTruthy sch.byday <;>
    simp [scheduleLines, h, List.filterMap_append, List.filterMap_cons,
          h1, h2, h3, h4]

theorem filterMap_addressLines_nil {β : Type} (f : SLine → Option β)
    (h1 : ∀ s, f (SLine.addrLine1 s) = none)
    (h2 : ∀ a b c, f (SLine.addrLine2 a b c) = none)
    (h3 : ∀ s, f (SLine.addrType s) = none)
    (a : Address) : (addressLines a).filterMap f = [] := by
  simp [addressLines, List.filterMap_cons, h1, h2, h3]

theorem svcHeaderIdxs_salBlock (i : Nat) (sal : ServiceAtLocation) :
    svcHeaderIdxs (salBlock i sal) = [i] := by
  have hs := filterMap_flatMap_nil selSvcHeader scheduleLines
    (filterMap_scheduleLines_nil selSvcHeader (fun _ => rfl) (fun _ => rfl)
      (fun _ => rfl) (fun _ _ => rfl)) sal.service.schedules
  have ha := filterMap_flatMap_nil selSvcHeader addressLines
    (filterMap_addressLines_nil selSvcHeader (fun _ => rfl)
      (fun _ _ _ => rfl) (fun _ => rfl)) sal.location.addresses
  have hp := filterMap_map_nil selSvcHeader
    (fun p : PhoneNumber => SLine.phoneLine p.number p.phone_type)
    (fun _ => rfl) sal.service.phones
  simp [svcHeaderIdxs, salBlock, List.filterMap_append, hs, ha, hp,
        apply_ite (List.filterMap selSvcHeader), selSvcHeader]

theorem svcHeaderIdxs_salBlocks (i : Nat) (sals : List ServiceAtLocation) :
    svcHeaderIdxs (salBlocks i sals) = List.range' i sals.length := by
  induction sals generalizing i with
  | nil => rfl
  | cons sal rest ih =>
    have h := svcHeaderIdxs_salBlock i sal
    simp only [svcHeaderIdxs] at h ih ⊢
    simp [salBlocks, List.filterMap_append, h, ih, List.range'_succ]

theorem salHeaderCounts_salBlock (i : Nat) (sal : ServiceAtLocation) :
    salHeaderCounts (salBlock i sal) = [] := by
  have hs := filterMap_flatMap_nil selSalHeader scheduleLines
    (filterMap_scheduleLines_nil selSalHeader (fun _ => rfl) (fun _ => rfl)
      (fun _ => rfl) (fun _ _ => rfl)) sal.service.schedules
  have ha := filterMap_flatMap_nil selSalHeader addressLines
    (filterMap_addressLines_nil selSalHeader (fun _ => rfl)
      (fun _ _ _ => rfl) (fun _ => rfl)) sal.location.addresses
  have hp := filterMap_map_nil selSalHeader
    (fun p : PhoneNumber => SLine.phoneLine p.number p.phone_type)
    (fun _ => rfl) sal.service.phones
  simp [salHeaderCounts, salBlock, List.filterMap_append, hs, ha, hp,
        apply_ite (List.filterMap selSalHeader), selSalHeader]

theorem salHeaderCounts_salBlocks (i : Nat) (sals : List ServiceAtLocation) :
    salHeaderCounts (salBlocks i sals) = [] := by
  induction sals generalizing i with
  | nil => rfl
  | cons sal rest ih =>
    have h := salHeaderCounts_salBlock i sal
    simp only [salHeaderCounts] at h ih ⊢
    simp [salBlocks, List.filterMap_append, h, ih]

/-- C5: for every StructuredRecord, the count interpolated into the
single `SERVICES & LOCATIONS (N found)` header equals the length of
`services_at_locations`, and the `[i] SERVICE:` blocks are exactly one
per element, numbered consecutively from 1. -/
theorem C5_summary_counts (d : HSDSData) :
    salHeaderCounts (print_summary d) = [d.services_at_locations.length] ∧
    svcHeaderIdxs (print_summary d) =
      List.range' 1 d.services_at_locations.length := by
  constructor
  · have h := salHeaderCounts_salBlocks 1 d.services_at_locations
    simp only [salHeaderCounts] at h ⊢
    cases hu : pyTruthy d.organization.url <;>
      simp [print_summary, hu, List.filterMap_append, List.filterMap_cons,
            selSalHeader, h]
  · have h := svcHeaderIdxs_salBlocks 1 d.services_at_locations
    simp only [svcHeaderIdxs] at h ⊢
    cases hu : pyTruthy d.organization.url <;>
      simp [print_summary, hu, List.filterMap_append, List.filterMap_cons,
            selSvcHeader, h]

theorem eligVals_salBlock (i : Nat) (sal : ServiceAtLocation) :
    eligVals (salBlock i sal) =
      (if pyTruthy sal.service.eligibility
       then [sal.service.eligibility.getD ""] else []) := by
  have hs := filterMap_flatMap_nil selElig scheduleLines
    (filterMap_scheduleLines_nil selElig (fun _ => rfl) (fun _ => rfl)
      (fun _ => rfl) (fun _ _ => rfl)) sal.service.schedules
  have ha := filterMap_flatMap_nil selElig addressLines
    (filterMap_addressLines_nil selElig (fun _ => rfl)
      (fun _ _ _ => rfl) (fun _ => rfl)) sal.location.addresses
  have hp := filterMap_map_nil selElig
    (fun p : PhoneNumber => SLine.phoneLine p.number p.phone_type)
    (fun _ => rfl) sal.service.phones
  simp [eligVals, salBlock, List.filterMap_append, hs, ha, hp,
        apply_ite (List.filterMap selElig), selElig]

theorem feesVals_salBlock (i : Nat) (sal : ServiceAtLocation) :
    feesVals (salBlock i sal) =
      (if pyTruthy sal.service.fees
       then [sal.service.fees.getD ""] else []) := by
  have hs := filterMap_flatMap_nil selFees scheduleLines
    (filterMap_scheduleLines_nil selFees (fun _ => rfl) (fun _ => rfl)
      (fun _ => rfl) (fun _ _ => rfl)) sal.service.schedules
  have ha := filterMap_flatMap_nil selFees addressLines
    (filterMap_addressLines_nil selFees (fun _ => rfl)
      (fun _ _ _ => rfl) (fun _ => rfl)) sal.location.addresses
  have hp := filterMap_map_nil selFees
    (fun p : PhoneNumber => SLine.phoneLine p.number p.phone_type)
    (fun _ => rfl) sal.service.phones
  simp [feesVals, salBlock, List.filterMap_append, hs, ha, hp,
        apply_ite (List.filterMap selFees), selFees]

theorem locDescVals_salBlock (i : Nat) (sal : ServiceAtLocation) :
    locDescVals (salBlock i sal) =
      (if pyTruthy sal.location.description
       then [sal.location.description.getD ""] else []) := by
  have hs := filterMap_flatMap_nil selLocDesc scheduleLines
    (filterMap_scheduleLines_nil selLocDesc (fun _ => rfl) (fun _ => rfl)
      (fun _ => rfl) (fun _ _ => rfl)) sal.service.schedules
  have ha := filterMap_flatMap_nil selLocDesc addressLines
    (filterMap_addressLines_nil selLocDesc (fun _ => rfl)
      (fun _ _ _ => rfl) (fun _ => rfl)) sal.location.addresses
  have hp := filterMap_map_nil selLocDesc
    (fun p : PhoneNumber => SLine.phoneLine p.number p.phone_type)
    (fun _ => rfl) sal.service.phones
  simp [locDescVals, salBlock, List.filterMap_append, hs, ha, hp,
        apply_ite (List.filterMap selLocDesc), selLocDesc]

theorem orgUrlVals_salBlock (i : Nat) (sal : ServiceAtLocation) :
    orgUrlVals (salBlock i sal) = [] := by
  have hs := filterMap_flatMap_nil selOrgUrl scheduleLines
    (filterMap_scheduleLines_nil selOrgUrl (fun _ => rfl) (fun _ => rfl)
      (fun _ => rfl) (fun _ _ => rfl)) sal.service.schedules
  have ha := filterMap_flatMap_nil selOrgUrl addressLines
    (filterMap_addressLines_nil selOrgUrl (fun _ => rfl)
      (fun _ _ _ => rfl) (fun _ => rfl)) sal.location.addresses
  have hp := filterMap_map_nil selOrgUrl
    (fun p : PhoneNumber => SLine.phoneLine p.number p.phone_type)
    (fun _ => rfl) sal.service.phones
  simp [orgUrlVals, salBlock, List.filterMap_append, hs, ha, hp,
        apply_ite (List.filterMap selOrgUrl), selOrgUrl]

theorem orgUrlVals_salBlocks (i : Nat) (sals : List ServiceAtLocation) :
    orgUrlVals (salBlocks i sals) = [] := by
  induction sals generalizing i with
  | nil => rfl
  | cons sal rest ih =>
    have h := orgUrlVals_salBlock i sal
    simp only [orgUrlVals] at h ih ⊢
    simp [salBlocks, List.filterMap_append, h, ih]

/-- C6 (amended): the summary omits the lines for an absent organization
url, service eligibility, service fees, schedule `byday`, and location
description; an absent schedule description, however, is not omitted —
the schedule header line is printed with the placeholder text
`Schedule` in its place (and the hours line is printed
unconditionally). -/
theorem C6_optional_field_omission :
    (∀ d : HSDSData, d.organization.url = none →
       orgUrlVals (print_summary d) = []) ∧
    (∀ (i : Nat) (sal : ServiceAtLocation), sal.service.eligibility = none →
       eligVals (salBlock i sal) = []) ∧
    (∀ (i : Nat) (sal : ServiceAtLocation), sal.service.fees = none →
       feesVals (salBlock i sal) = []) ∧
    (∀ sch : Schedule, sch.byday = none →
       daysVals (scheduleLines sch) = []) ∧
    (∀ (i : Nat) (sal : ServiceAtLocation), sal.location.description = none →
       locDescVals (salBlock i sal) = []) ∧
    (∀ sch : Schedule, sch.description = none →
       schedDescVals (scheduleLines sch) = ["Schedule"]) := by
  refine ⟨?_, ?_, ?_, ?_, ?_, ?_⟩
  · intro d hurl
    have h := orgUrlVals_salBlocks 1 d.services_at_locations
    simp only [orgUrlVals] at h ⊢
    simp [print_summary, hurl, pyTruthy, List.filterMap_append,
          List.filterMap_cons, selOrgUrl, h]
  · intro i sal h
    simp [eligVals_salBlock, h, pyTruthy]
  · intro i sal h
    simp [feesVals_salBlock, h, pyTruthy]
  · intro sch h
    simp [daysVals, scheduleLines, h, pyTruthy, List.filterMap_append,
          List.filterMap_cons, selDays]
  · intro i sal h
    simp [locDescVals_salBlock, h, pyTruthy]
  · intro sch h
    cases hb : pyTruthy sch.byday <;>
      simp [schedDescVals, scheduleLines, h, hb, pyOr,
            List.filterMap_append, List.filterMap_cons, selSchedDesc]

/-- C6 witness: the amended omission properties evaluated on the
concrete sample record, whose optional fields are all absent. -/
theorem C6_optional_field_omission_witness :
    orgUrlVals (print_summary hsds0) = [] ∧
    eligVals (salBlock 1 sal0) = [] ∧
    feesVals (salBlock 1 sal0) = [] ∧
    daysVals (scheduleLines sched0) = [] ∧
    locDescVals (salBlock 1 sal0) = [] ∧
    schedDescVals (scheduleLines sched0) = ["Schedule"] :=
  ⟨C6_optional_field_omission.1 hsds0 rfl,
   C6_optional_field_omission.2.1 1 sal0 rfl,
   C6_optional_field_omission.2.2.1 1 sal0 rfl,
   C6_optional_field_omission.2.2.2.1 sched0 rfl,
   C6_optional_field_omission.2.2.2.2.1 1 sal0 rfl,
   C6_optional_field_omission.2.2.2.2.2 sched0 rfl⟩

/-- C6 counterexample: for the concrete record `hsds0`, whose single
schedule has an absent (`None`) description, the summary nevertheless
prints a schedule header line carrying the placeholder text `Schedule` —
so an absent schedule description is rendered as a placeholder, not
omitted, refuting the claim as stated. -/
theorem C6_counterexample :
    sched0.description = none ∧
    SLine.schedDesc "Schedule" ∈ print_summary hsds0 := by
  constructor
  · rfl
  · decide

/-! ### Preset resolution (C1) -/

/-- C1: for every preset name given to the OCR test entry point, the
resolved (base size, image size, crop mode) triple matches the
documented table — tiny = (512, 512, no-crop), small = (640, 640,
no-crop), base = (1024, 1024, no-crop), gundam = (1024, 640,
crop-mode) — and any other preset name resolves, totally and without
failure, to the tiny triple with the warning flag set. -/
theorem C1_preset_table :
    resolveMode "tiny" = (⟨512, 512, false⟩, false) ∧
    resolveMode "small" = (⟨640, 640, false⟩, false) ∧
    resolveMode "base" = (⟨1024, 1024, false⟩, false) ∧
    resolveMode "gundam" = (⟨1024, 640, true⟩, false) ∧
    ∀ m : String, m ∉ ["tiny", "small", "base", "gundam"] →
      resolveMode m = (⟨512, 512, false⟩, true) := by
  refine ⟨rfl, rfl, rfl, rfl, ?_⟩
  intro m hm
  simp only [List.mem_cons, List.not_mem_nil, or_false, not_or] at hm
  obtain ⟨h1, h2, h3, h4⟩ := hm
  have e1 : (m == "tiny") = false := beq_eq_false_iff_ne.mpr h1
  have e2 : (m == "small") = false := beq_eq_false_iff_ne.mpr h2
  have e3 : (m == "base") = false := beq_eq_false_iff_ne.mpr h3
  have e4 : (m == "gundam") = false := beq_eq_false_iff_ne.mpr h4
  simp [resolveMode, modesTable, List.lookup, e1, e2, e3, e4]

/-- C1 witness: the unknown preset name `huge` resolves to the tiny
triple with a warning. -/
theorem C1_preset_table_witness :
    "huge" ∉ ["tiny", "small", "base", "gundam"] ∧
    resolveMode "huge" = (⟨512, 512, false⟩, true) :=
  ⟨by decide, C1_preset_table.2.2.2.2 "huge" (by decide)⟩

/-! ### Trace lemmas for `main` (C2, C3, C8, C9, C10) -/

theorem optOrElse_none {α : Type} (o : Option α) :
    (o.orElse fun _ => none) = o := by
  cases o <;> rfl

theorem optOrElse_eq_none {α : Type} (o : Option α) (f : Unit → Option α) :
    (o.orElse f) = none ↔ o = none ∧ f () = none := by
  cases o <;> simp [Option.orElse]

theorem stageExc_eq_none (s : StageRes) : stageExc s = none ↔ s = .okRes := by
  cases s <;> simp [stageExc]

theorem seqStage_snd (evs : List Ev) (r : StageRes)
    (rest : List Ev × Option Exc) :
    (seqStage evs r rest).2 = (stageExc r).orElse fun _ => rest.2 := by
  cases r <;> rfl

theorem tryBody_snd (inferFn : InferFn) (imagePath dev : String)
    (d : HSDSData) (r : RunResults) :
    (tryBody inferFn imagePath dev d r).2 = bodyExc r := by
  simp only [tryBody, seqStage_snd, bodyExc, optOrElse_none]

theorem mainRun_exit (inferFn : InferFn) (imagePath dev : String)
    (d : HSDSData) (r : RunResults) :
    (mainRun inferFn imagePath dev d r).2 =
      match bodyExc r with
      | some (.exc _) => 1
      | _ => 0 := by
  have hs := tryBody_snd inferFn imagePath dev d r
  unfold mainRun
  rcases htb : tryBody inferFn imagePath dev d r with ⟨t, e⟩
  rw [htb] at hs
  simp only at hs
  rw [← hs]
  cases e with
  | none => rfl
  | some ex => cases ex <;> rfl

theorem mainRun_fst (inferFn : InferFn) (imagePath dev : String)
    (d : HSDSData) (r : RunResults) :
    (mainRun inferFn imagePath dev d r).1 =
      (tryBody inferFn imagePath dev d r).1 ++
        (match bodyExc r with
         | none => []
         | some .keyInt => [Ev.out "\n\nOperation cancelled by user."]
         | some (.exc m) => [Ev.err ("\nError: " ++ m)]) := by
  have hs := tryBody_snd inferFn imagePath dev d r
  unfold mainRun
  rcases htb : tryBody inferFn imagePath dev d r with ⟨t, e⟩
  rw [htb] at hs
  simp only at hs
  rw [← hs]
  cases e with
  | none => simp
  | some ex => cases ex <;> rfl

theorem bodyExc_none_iff (r : RunResults) :
    bodyExc r = none ↔ r.promptR = .okRes ∧ r.ocrR = .okRes ∧
      r.saveOcrR = .okRes ∧ r.extractR = .okRes ∧ r.summaryR = .okRes ∧
      r.saveJsonR = .okRes := by
  simp [bodyExc, optOrElse_eq_none, stageExc_eq_none]

theorem all_take (P : Ev → Bool) (k : Nat) (l : List Ev)
    (h : l.all P = true) : ((l.take k).all P) = true := by
  rw [List.all_eq_true] at h ⊢
  exact fun x hx => h x (List.take_subset k l hx)

theorem all_takeWhile_of_all (P q : Ev → Bool) (l : List Ev)
    (h : l.all P = true) : ((l.takeWhile q).all P) = true := by
  rw [List.all_eq_true] at h ⊢
  exact fun x hx => h x (List.takeWhile_subset q hx)

theorem seqStage_all (P : Ev → Bool) (evs : List Ev) (r : StageRes)
    (rest : List Ev × Option Exc) (h1 : evs.all P = true)
    (h2 : rest.1.all P = true) :
    ((seqStage evs r rest).1.all P) = true := by
  cases r with
  | okRes => simp [seqStage, List.all_append, h1, h2]
  | raiseExc k m => simpa [seqStage] using all_take P k evs h1
  | raiseInt k => simpa [seqStage] using all_take P k evs h1

theorem all_map_render (P : Ev → Bool) (hP : ∀ s, P (Ev.out s) = true)
    (ls : List SLine) :
    ((ls.map fun l => Ev.out (renderSLine l)).all P) = true := by
  rw [List.all_eq_true]
  intro x hx
  rcases List.mem_map.mp hx with ⟨l, _, rfl⟩
  exact hP _

theorem tryBody_all (P : Ev → Bool) (inferFn : InferFn)
    (imagePath dev : String) (d : HSDSData) (r : RunResults)
    (h1 : preludeEvs.all P = true)
    (h2 : ∀ txt, (ocrStageEvs imagePath dev txt).all P = true)
    (h3 : ∀ txt, (save_ocr_text txt ocrOutputFile).all P = true)
    (h4 : extract_hsds_data_from_text_evs.all P = true)
    (h5 : ((print_summary d).map fun l => Ev.out (renderSLine l)).all P = true)
    (h6 : (save_to_json d jsonOutputFile).all P = true)
    (h7 : finalEvs.all P = true) :
    ((tryBody inferFn imagePath dev d r).1.all P) = true := by
  unfold tryBody
  exact seqStage_all P _ _ _ h1 (seqStage_all P _ _ _ (h2 _)
    (seqStage_all P _ _ _ (h3 _) (seqStage_all P _ _ _ h4
      (seqStage_all P _ _ _ h5 (seqStage_all P _ _ _ h6 h7)))))

theorem mainRun_all (P : Ev → Bool) (inferFn : InferFn)
    (imagePath dev : String) (d : HSDSData) (r : RunResults)
    (hbody : ((tryBody inferFn imagePath dev d r).1.all P) = true)
    (hc : P (Ev.out "\n\nOperation cancelled by user.") = true)
    (he : ∀ m, P (Ev.err ("\nError: " ++ m)) = true) :
    ((mainRun inferFn imagePath dev d r).1.all P) = true := by
  rw [mainRun_fst]
  rcases h : bodyExc r with _ | ex
  · simpa using hbody
  · cases ex <;> simp [List.all_append, hbody, hc, he]

/-! ### Exit behavior (C2) -/

/-- C2 (amended): the two-stage pipeline process exits 0 exactly when
either the run completed in full (no stage raised — in which case the
JSON record was persisted) or the user cancelled with Ctrl+C; on any
other stage failure it exits 1 and the error message is printed to the
error stream. -/
theorem C2_exit_behavior (inferFn : InferFn) (imagePath dev : String)
    (d : HSDSData) (r : RunResults) :
    ((mainRun inferFn imagePath dev d r).2 = 0 ↔
      bodyExc r = none ∨ bodyExc r = some Exc.keyInt) ∧
    (∀ m, bodyExc r = some (Exc.exc m) →
      (mainRun inferFn imagePath dev d r).2 = 1 ∧
      Ev.err ("\nError: " ++ m) ∈ (mainRun inferFn imagePath dev d r).1) ∧
    (bodyExc r = none →
      Ev.writeJson jsonOutputFile (hsds_to_dict d) ∈
        (mainRun inferFn imagePath dev d r).1) := by
  refine ⟨?_, ?_, ?_⟩
  · rw [mainRun_exit]
    rcases h : bodyExc r with _ | ex
    · simp
    · cases ex <;> simp
  · intro m hm
    constructor
    · rw [mainRun_exit, hm]
    · rw [mainRun_fst, hm]
      simp
  · intro h
    rw [mainRun_fst, h]
    obtain ⟨h1, h2, h3, h4, h5, h6⟩ := (bodyExc_none_iff r).mp h
    simp [tryBody, seqStage, h1, h2, h3, h4, h5, h6, save_to_json]

/-- C2 witness: a concrete run whose extraction stage raises `boom`
exits 1 with the error printed to stderr. -/
theorem C2_exit_behavior_witness :
    (mainRun inferC default_image "cpu" hsds0 rFail).2 = 1 ∧
    Ev.err ("\nError: " ++ "boom") ∈
      (mainRun inferC default_image "cpu" hsds0 rFail).1 :=
  (C2_exit_behavior inferC default_image "cpu" hsds0 rFail).2.1 "boom" rfl

/-- C2 counterexample: a run cancelled by the user at the Ollama prompt
exits with code 0 — not a non-zero code as the claim states — although
the run never reached the Persisted state: its trace contains no file
write at all. -/
theorem C2_counterexample :
    bodyExc rCancel = some Exc.keyInt ∧
    (mainRun inferC default_image "cpu" hsds0 rCancel).2 = 0 ∧
    (mainRun inferC default_image "cpu" hsds0 rCancel).1.all
      (fun e => !(isWriteEv e)) = true :=
  ⟨rfl, rfl, rfl⟩

/-! ### OCR text persisted before extraction (C3) -/

/-- C3: in every run of the two-stage pipeline in which the prompt, the
OCR stage and the OCR-text save complete, the raw OCR text is written to
its plain-text output path, and that write strictly precedes any
structured-extraction call: the part of the trace before the first
OCR-text write contains no extraction call.  The extraction stage and
everything after it are unconstrained, so this holds in particular when
the extraction call subsequently fails. -/
theorem C3_ocr_saved_before_extract (inferFn : InferFn)
    (imagePath dev : String) (d : HSDSData) (r : RunResults)
    (hp : r.promptR = .okRes) (ho : r.ocrR = .okRes)
    (hs : r.saveOcrR = .okRes) :
    Ev.writeText ocrOutputFile (inferFn ocrPrompt imagePath 1024 640 true) ∈
      (mainRun inferFn imagePath dev d r).1 ∧
    ((mainRun inferFn imagePath dev d r).1.takeWhile
        fun e => !(isOcrTextWrite e)).all (fun e => !(isExtractCall e))
      = true := by
  rw [mainRun_fst]
  constructor
  · simp [tryBody, seqStage, hp, ho, hs, save_ocr_text, preludeEvs,
          ocrStageEvs]
  · simp [tryBody, seqStage, hp, ho, hs, save_ocr_text, preludeEvs,
          ocrStageEvs, List.takeWhile_cons, isOcrTextWrite, isExtractCall]

/-- C3 witness: in the concrete run whose extraction stage raises, the
OCR text write is in the trace and precedes any extraction call. -/
theorem C3_ocr_saved_before_extract_witness :
    Ev.writeText ocrOutputFile (inferC ocrPrompt default_image 1024 640 true) ∈
      (mainRun inferC default_image "cpu" hsds0 rFail).1 ∧
    ((mainRun inferC default_image "cpu" hsds0 rFail).1.takeWhile
        fun e => !(isOcrTextWrite e)).all (fun e => !(isExtractCall e))
      = true :=
  C3_ocr_saved_before_extract inferC default_image "cpu" hsds0 rFail
    rfl rfl rfl

/-! ### No configuration check before the extraction call (C7) -/

/-- C7 counterexample: in `extract_hsds_data_from_text`, every event
preceding the extraction network call is a stdout progress print — no
configuration or credential check of any kind happens before the
network call is issued, refuting the claim that a missing
credential/endpoint is detected before any network call. -/
theorem C7_counterexample :
    (extract_hsds_data_from_text_evs.takeWhile
        fun e => !(isExtractCall e)).all isOut = true ∧
    Ev.extractNet ∈ extract_hsds_data_from_text_evs := by
  constructor
  · rfl
  · simp [extract_hsds_data_from_text_evs]

/-- C7 (amended): the text-conditioned extraction entry point used by
the two-stage pipeline performs no configuration check at all — its
only non-print event is the single extraction network call, which it
issues directly, so no `ConfigurationError` can be raised by it. -/
theorem C7_no_config_check :
    extract_hsds_data_from_text_evs.filter (fun e => !(isOut e)) =
      [Ev.extractNet] := rfl

/-! ### Missing-file handling (C8) -/

/-- C8 (amended): the standalone OCR test entry point checks for the
input file before anything else — on a missing path it exits 1 after
printing the usage message, with no model operation and no file write
in the trace; the two-stage pipeline entry point, by contrast, never
performs a file-existence check: no run of `mainRun` contains one. -/
theorem C8_notfound_precheck :
    (∀ (inferFn : InferFn) (arg0 imagePath mode dev devName lt ot tt : String)
       (r : StageRes),
      (testMainRun inferFn arg0 imagePath mode dev devName lt ot tt
          false r).2 = 1 ∧
      Ev.existsCheck imagePath false ∈
        (testMainRun inferFn arg0 imagePath mode dev devName lt ot tt
          false r).1 ∧
      (testMainRun inferFn arg0 imagePath mode dev devName lt ot tt
          false r).1.all
        (fun e => !(isModelEv e) && !(isWriteEv e)) = true) ∧
    (∀ (inferFn : InferFn) (imagePath dev : String) (d : HSDSData)
       (r : RunResults),
      (mainRun inferFn imagePath dev d r).1.all
        (fun e => !(isExistsCheckEv e)) = true) := by
  constructor
  · intro inferFn arg0 imagePath mode dev devName lt ot tt r
    refine ⟨rfl, ?_, ?_⟩
    · simp [testMainRun, usageEvs]
    · simp [testMainRun, usageEvs, isModelEv, isWriteEv]
  · intro inferFn imagePath dev d r
    apply mainRun_all
    · apply tryBody_all
      · rfl
      · intro txt; rfl
      · intro txt; rfl
      · rfl
      · exact all_map_render _ (fun _ => rfl) _
      · rfl
      · rfl
    · rfl
    · intro m; rfl

/-- C8 counterexample: running the two-stage pipeline on the concrete
missing path `./missing.jpg` (a run whose OCR stage raises "file not
found" from inside the inference call), the tokenizer and model are
loaded and the inference call is issued before the failure surfaces,
no file-existence check occurs anywhere in the trace, and the process
exits through the generic failure path — not through a NotFound check
made before any model call, refuting the claim as stated. -/
theorem C8_counterexample :
    Ev.loadModel ∈ (mainRun inferC "./missing.jpg" "cpu" hsds0 rOcrCrash).1 ∧
    Ev.inferCall ocrPrompt "./missing.jpg" 1024 640 true ∈
      (mainRun inferC "./missing.jpg" "cpu" hsds0 rOcrCrash).1 ∧
    (mainRun inferC "./missing.jpg" "cpu" hsds0 rOcrCrash).1.all
      (fun e => !(isExistsCheckEv e)) = true ∧
    (mainRun inferC "./missing.jpg" "cpu" hsds0 rOcrCrash).2 = 1 := by
  refine ⟨?_, ?_, rfl, rfl⟩
  · simp [mainRun, tryBody, seqStage, stageExc, preludeEvs, ocrStageEvs,
          rOcrCrash]
  · simp [mainRun, tryBody, seqStage, stageExc, preludeEvs, ocrStageEvs,
          rOcrCrash]

/-! ### Fixed OCR configuration of the pipeline (C9) -/

/-- C9: the two-stage pipeline's OCR invocation is fixed: the stage
returns the inference oracle's output for the fixed prompt and the
Gundam configuration `base_size=1024, image_size=640, crop_mode=True`
unmodified, the stage's trace contains no other inference call, and in
every run of the pipeline entry point every inference call made uses
exactly that configuration and prompt. -/
theorem C9_fixed_ocr_invocation (inferFn : InferFn)
    (imagePath dev : String) :
    (extract_text_with_deepseek_ocr inferFn imagePath dev).2 =
      inferFn "<image>\n<|grounding|>Convert the document to markdown."
        imagePath 1024 640 true ∧
    (∀ e ∈ (extract_text_with_deepseek_ocr inferFn imagePath dev).1,
      isInferEv e = true →
        e = Ev.inferCall ocrPrompt imagePath 1024 640 true) ∧
    (∀ (d : HSDSData) (r : RunResults),
      ∀ e ∈ (mainRun inferFn imagePath dev d r).1,
        isInferEv e = true →
          e = Ev.inferCall ocrPrompt imagePath 1024 640 true) := by
  refine ⟨rfl, ?_, ?_⟩
  · intro e he hi
    simp only [extract_text_with_deepseek_ocr, ocrStageEvs,
      List.mem_cons, List.not_mem_nil, or_false] at he
    rcases he with rfl|rfl|rfl|rfl|rfl|rfl|rfl|rfl|rfl|rfl|rfl|rfl|rfl|rfl|rfl|rfl|rfl|rfl|rfl|rfl|rfl <;>
      simp_all [isInferEv]
  · intro d r e he hi
    have hall : ((mainRun inferFn imagePath dev d r).1.all
        (isFixedInfer imagePath)) = true := by
      apply mainRun_all
      · apply tryBody_all
        · rfl
        · intro txt; simp [ocrStageEvs, isFixedInfer]
        · intro txt; rfl
        · rfl
        · exact all_map_render _ (fun _ => rfl) _
        · rfl
        · rfl
      · rfl
      · intro m; rfl
    rw [List.all_eq_true] at hall
    have hfix := hall e he
    cases e <;> simp_all [isInferEv, isFixedInfer]

/-- C9 witness: in a concrete full run, the Gundam-configuration
inference call is in the trace, and the theorem identifies it as the
fixed invocation. -/
theorem C9_fixed_ocr_invocation_witness :
    Ev.inferCall ocrPrompt default_image 1024 640 true ∈
      (mainRun inferC default_image "cpu" hsds0 rOk).1 ∧
    Ev.inferCall ocrPrompt default_image 1024 640 true =
      Ev.inferCall ocrPrompt default_image 1024 640 true := by
  have hmem : Ev.inferCall ocrPrompt default_image 1024 640 true ∈
      (mainRun inferC default_image "cpu" hsds0 rOk).1 := by
    simp [mainRun, tryBody, seqStage, preludeEvs, ocrStageEvs, rOk]
  exact ⟨hmem,
    (C9_fixed_ocr_invocation inferC default_image "cpu").2.2 hsds0 rOk
      _ hmem rfl⟩

/-! ### The prompt gates the pipeline (C10) -/

/-- C10: the two-stage pipeline's `main` blocks on the interactive
stdin prompt before any OCR or extraction work: in every run, the trace
before the first input prompt contains no model operation and no file
write; and when the user interrupt strikes at (or before) the prompt,
the process exits 0 and the entire trace contains no model operation
and no file write — no output artifact was created. -/
theorem C10_prompt_gates (inferFn : InferFn) (imagePath dev : String)
    (d : HSDSData) (r : RunResults) :
    (((mainRun inferFn imagePath dev d r).1.takeWhile
        fun e => !(isPromptEv e)).all
      (fun e => !(isModelEv e) && !(isWriteEv e)) = true) ∧
    (∀ k, r.promptR = .raiseInt k →
      (mainRun inferFn imagePath dev d r).2 = 0 ∧
      (mainRun inferFn imagePath dev d r).1.all
        (fun e => !(isModelEv e) && !(isWriteEv e)) = true) := by
  constructor
  · rw [mainRun_fst]
    cases hpr : r.promptR with
    | okRes =>
      simp [tryBody, seqStage, hpr, preludeEvs, List.takeWhile_cons,
            isPromptEv, isModelEv, isWriteEv]
    | raiseExc k m =>
      apply all_takeWhile_of_all
      have hb : bodyExc r = some (Exc.exc m) := by
        simp [bodyExc, stageExc, hpr, Option.orElse]
      rw [hb]
      simp only [tryBody, seqStage, hpr, List.all_append, Bool.and_eq_true]
      exact ⟨all_take _ k _ rfl, rfl⟩
    | raiseInt k =>
      apply all_takeWhile_of_all
      have hb : bodyExc r = some Exc.keyInt := by
        simp [bodyExc, stageExc, hpr, Option.orElse]
      rw [hb]
      simp only [tryBody, seqStage, hpr, List.all_append, Bool.and_eq_true]
      exact ⟨all_take _ k _ rfl, rfl⟩
  · intro k hk
    have hb : bodyExc r = some Exc.keyInt := by
      simp [bodyExc, stageExc, hk, Option.orElse]
    constructor
    · simp [mainRun_exit, hb]
    · rw [mainRun_fst, hb]
      simp only [tryBody, seqStage, hk, List.all_append, Bool.and_eq_true]
      exact ⟨all_take _ k _ rfl, rfl⟩

/-- C10 witness: the concrete run interrupted at the prompt exits 0
with no model operation and no file write in its trace. -/
theorem C10_prompt_gates_witness :
    (mainRun inferC default_image "cpu" hsds0 rCancel).2 = 0 ∧
    (mainRun inferC default_image "cpu" hsds0 rCancel).1.all
      (fun e => !(isModelEv e) && !(isWriteEv e)) = true :=
  (C10_prompt_gates inferC default_image "cpu" hsds0 rCancel).2 5 rfl

end ImageToHsds
